import Mathlib

/-!
Verification of the POS back-office modules and the Myanmar house-price
prediction service against their natural-language specification.

Monetary amounts and float-valued quantities are modelled as rationals,
datetimes as integers (timestamps) or strings where only their text is used.
Record operations that may raise are modelled as `Except String` /
`Except HttpError` computations; a successful result carries the updated
records, an error result models a raised exception (which in the source
aborts the transaction, leaving records unchanged).
-/

/-- Payment status selection field of `pos.payment`
(`pos_sales/models/pos_payment.py`). -/
inductive PaymentStatus where
  | pending
  | done
  | failed
  | reversed
deriving DecidableEq, Repr

/-- The fields of a `pos.payment` record used by the payment logic
(`pos_sales/models/pos_payment.py`).  An unset `note` (falsy in Python)
is modelled as the empty string. -/
structure PosPayment where
  name : String
  amount : ℚ
  payment_status : PaymentStatus
  note : String
  is_change : Bool
deriving DecidableEq, Repr

/-- `PosPayment._check_amount` (pos_payment.py lines 44-50): a non-change
payment must have positive amount, a change payment negative. -/
def PosPayment.check_amount (p : PosPayment) : Except String Unit :=
  if p.amount ≤ 0 ∧ p.is_change = false then
    Except.error "Payment amount must be positive."
  else if 0 ≤ p.amount ∧ p.is_change = true then
    Except.error "Change amount must be negative."
  else
    Except.ok ()

/-- `PosPayment.reverse_payment` (pos_payment.py lines 52-72) on a single
record.  A non-`done` payment raises; otherwise the original is written to
status `reversed` with a reversal note appended, and `payment.copy(...)`
builds the balancing payment (negated amount, status `done`,
cross-referencing name and note, `is_change` copied).  `copy` creates the
record, which fires the `@api.constrains('amount')` check `_check_amount`
(lines 44-50): a raised constraint aborts the whole operation, rolling the
earlier write back (the error result).  `now` is the rendered current
datetime used in the reversal note. -/
def PosPayment.reverse_payment (p : PosPayment) (now : String) :
    Except String (PosPayment × PosPayment) :=
  if p.payment_status ≠ PaymentStatus.done then
    Except.error "Only confirmed payments can be reversed."
  else
    let reversal_note := "Payment reversed on " ++ now
    let original := { p with
      payment_status := PaymentStatus.reversed
      note := if p.note ≠ "" then p.note ++ "\n" ++ reversal_note else reversal_note }
    let new_payment := { p with
      name := "Reversal of " ++ p.name
      amount := - p.amount
      note := "Reversal of payment " ++ p.name
      payment_status := PaymentStatus.done }
    match new_payment.check_amount with
    | Except.error msg => Except.error msg
    | Except.ok _ => Except.ok (original, new_payment)

/-- Order state selection field of `pos.order`
(`pos_sales/models/pos_order.py`). -/
inductive OrderState where
  | draft
  | paid
  | done
  | invoiced
  | cancel
deriving DecidableEq, Repr

/-- Invoice state selection field of `pos.order`. -/
inductive InvoiceState where
  | no
  | invoiced
deriving DecidableEq, Repr

/-- The amounts of a `pos.order.line` used by `_compute_amount_all`. -/
structure PosOrderLine where
  price_subtotal : ℚ
  price_subtotal_incl : ℚ
deriving DecidableEq, Repr

/-- The fields of a `pos.order` record used by the order actions
(`pos_sales/models/pos_order.py`). -/
structure PosOrder where
  state : OrderState
  lines : List PosOrderLine
  payment_ids : List PosPayment
  invoice_state : InvoiceState
deriving DecidableEq, Repr

/-- `PosOrder._compute_amount_all` (pos_order.py lines 83-87):
the order total is the sum of the tax-inclusive line subtotals. -/
def PosOrder.amount_total (o : PosOrder) : ℚ :=
  (o.lines.map (fun l => l.price_subtotal_incl)).sum

/-- `PosOrder._compute_amount_paid` (pos_order.py lines 89-93): amount paid
is the sum of the amounts of completed (`done`) non-change payments. -/
def PosOrder.amount_paid (o : PosOrder) : ℚ :=
  (((o.payment_ids.filter (fun p => p.payment_status = PaymentStatus.done)).filter
      (fun p => p.is_change = false)).map (fun p => p.amount)).sum

/-- `PosOrder._compute_amount_paid`: amount returned is the negated sum of
the amounts of completed change payments. -/
def PosOrder.amount_return (o : PosOrder) : ℚ :=
  - (((o.payment_ids.filter (fun p => p.payment_status = PaymentStatus.done)).filter
      (fun p => p.is_change = true)).map (fun p => p.amount)).sum

/-- `PosOrder.action_paid` (pos_order.py lines 106-117) on a single record.
A non-draft order is skipped (`continue`) and the method still returns
`True`; a draft order raises when the total exceeds the amount paid, and is
otherwise written to state `paid`. -/
def PosOrder.action_paid (o : PosOrder) : Except String (PosOrder × Bool) :=
  if o.state ≠ OrderState.draft then
    Except.ok (o, true)
  else if o.amount_paid < o.amount_total then
    Except.error "Cannot mark as paid: Order is not fully paid."
  else
    Except.ok ({ o with state := OrderState.paid }, true)

/-- `PosOrder.action_cancel` (pos_order.py lines 132-143) on a single record:
raises on `done`/`invoiced` orders; otherwise calls `reverse_payment` on
every completed payment (a raised reversal aborts the cancellation) and
writes the state to `cancel`. -/
def PosOrder.action_cancel (o : PosOrder) (now : String) :
    Except String (PosOrder × Bool) :=
  if o.state = OrderState.done ∨ o.state = OrderState.invoiced then
    Except.error "Cannot cancel a completed order."
  else
    match (o.payment_ids.filter
        (fun p => p.payment_status = PaymentStatus.done)).mapM
        (fun p => p.reverse_payment now) with
    | Except.error msg => Except.error msg
    | Except.ok _ =>
      let updated := o.payment_ids.map (fun p =>
        match p.reverse_payment now with
        | Except.ok (original, _) => original
        | Except.error _ => p)
      let created := o.payment_ids.filterMap (fun p =>
        match p.reverse_payment now with
        | Except.ok (_, new_payment) => some new_payment
        | Except.error _ => none)
      Except.ok ({ o with state := OrderState.cancel
                          payment_ids := updated ++ created }, true)

/-- `PosOrder.action_create_invoice` (pos_order.py lines 145-175) on a single
record, with the accounting move creation abstracted away: raises for states
other than `paid`/`done`, raises when already invoiced, and otherwise writes
the order to state `invoiced` with invoice state `invoiced`. -/
def PosOrder.action_create_invoice (o : PosOrder) :
    Except String (PosOrder × Bool) :=
  if ¬ (o.state = OrderState.paid ∨ o.state = OrderState.done) then
    Except.error "Cannot create invoice for unpaid order."
  else if o.invoice_state = InvoiceState.invoiced then
    Except.error "This order is already invoiced."
  else
    Except.ok ({ o with invoice_state := InvoiceState.invoiced
                        state := OrderState.invoiced }, true)

/-- A concrete `done`, non-change payment of amount 50 (it satisfies the
payment invariant `_check_amount`). -/
def payment50 : PosPayment :=
  { name := "POS-PAY-1", amount := 50, payment_status := PaymentStatus.done,
    note := "", is_change := false }

/-- Claim C1 (code bug): the claim and the method's own comment intend a
`done` payment to be reversed into a new `done` payment with the negated
amount, but the balancing copy always violates `_check_amount` when the
original satisfies it (a non-change original with positive amount yields a
non-change copy with negative amount, and symmetrically for change
payments), so the constraint fired by the copy's create raises and
`reverse_payment` fails for every invariant-satisfying `done` payment —
concretely, reversing the valid `done` payment of amount 50 raises
"Payment amount must be positive." instead of returning a payment of
amount -50.  Only the claim's non-`done` half holds on the code. -/
theorem reverse_payment_constraint_bug :
    (∀ (p : PosPayment) (now : String),
      p.payment_status = PaymentStatus.done →
      p.check_amount = Except.ok () →
      p.reverse_payment now = Except.error "Payment amount must be positive." ∨
      p.reverse_payment now = Except.error "Change amount must be negative.") ∧
    (∀ (p : PosPayment) (now : String),
      p.payment_status ≠ PaymentStatus.done →
      p.reverse_payment now = Except.error "Only confirmed payments can be reversed.") ∧
    payment50.reverse_payment "2024-01-01" =
      Except.error "Payment amount must be positive." := by
  refine ⟨?_, ?_, ?_⟩
  · intro p now hst hok
    unfold PosPayment.reverse_payment
    rw [if_neg (by simp [hst])]
    cases hch : p.is_change with
    | false =>
      have hpos : 0 < p.amount := by
        by_contra hc
        simp [PosPayment.check_amount, not_lt.mp hc, hch] at hok
      left
      have : (- p.amount ≤ 0 ∧ (false : Bool) = false) := ⟨by linarith, rfl⟩
      simp [PosPayment.check_amount, hch, this]
    | true =>
      have hneg : p.amount < 0 := by
        by_contra hc
        rw [PosPayment.check_amount] at hok
        rw [if_neg (by simp [hch]), if_pos ⟨not_lt.mp hc, hch⟩] at hok
        cases hok
      right
      have h1 : ¬ (- p.amount ≤ 0 ∧ (true : Bool) = false) := by
        simp
      have h2 : (0 ≤ - p.amount ∧ (true : Bool) = true) := ⟨by linarith, rfl⟩
      simp [PosPayment.check_amount, hch, h1, h2]
  · intro p now hst
    simp [PosPayment.reverse_payment, hst]
  · unfold PosPayment.reverse_payment
    rw [if_neg (by simp [payment50])]
    have : ((- payment50.amount ≤ 0 ∧ payment50.is_change = false)) := by
      norm_num [payment50]
    simp [PosPayment.check_amount, this]

/-- Witness for C1: applying the theorem at the concrete valid `done`
payment of amount 50 shows its reversal raises a constraint error. -/
theorem reverse_payment_constraint_bug_witness :
    payment50.reverse_payment "2024-01-01" =
      Except.error "Payment amount must be positive." ∨
    payment50.reverse_payment "2024-01-01" =
      Except.error "Change amount must be negative." :=
  reverse_payment_constraint_bug.1 payment50 "2024-01-01" (by rfl)
    (by rw [PosPayment.check_amount]; norm_num [payment50])

/-- Claim C2: for a draft order, `action_paid` moves the state to `paid`
when the sum of completed non-change payment amounts covers the total, and
otherwise raises the "not fully paid" user error (so the state stays
`draft`). -/
theorem action_paid_draft_spec (o : PosOrder) (h : o.state = OrderState.draft) :
    (o.amount_total ≤ o.amount_paid →
      o.action_paid = Except.ok ({ o with state := OrderState.paid }, true)) ∧
    (o.amount_paid < o.amount_total →
      o.action_paid = Except.error "Cannot mark as paid: Order is not fully paid.") := by
  constructor
  · intro hpaid
    simp [PosOrder.action_paid, h, not_lt.mpr hpaid]
  · intro hunpaid
    simp [PosOrder.action_paid, h, hunpaid]

/-- A concrete draft order with total 150 and completed non-change payments
summing to 150. -/
def order150 : PosOrder :=
  { state := OrderState.draft
    lines := [{ price_subtotal := 140, price_subtotal_incl := 150 }]
    payment_ids := [{ payment50 with name := "POS-PAY-2", amount := 150 }]
    invoice_state := InvoiceState.no }

/-- A concrete draft order with total 150 and completed non-change payments
summing to 100. -/
def order100 : PosOrder :=
  { state := OrderState.draft
    lines := [{ price_subtotal := 140, price_subtotal_incl := 150 }]
    payment_ids := [{ payment50 with name := "POS-PAY-3", amount := 100 }]
    invoice_state := InvoiceState.no }

/-- Witness for C2: the fully paid draft order transitions to `paid`; the
underpaid draft order raises the "not fully paid" user error. -/
theorem action_paid_draft_spec_witness :
    order150.action_paid = Except.ok ({ order150 with state := OrderState.paid }, true) ∧
    order100.action_paid = Except.error "Cannot mark as paid: Order is not fully paid." :=
  ⟨(action_paid_draft_spec order150 (by rfl)).1
      (by norm_num [order150, PosOrder.amount_total, PosOrder.amount_paid, payment50]),
   (action_paid_draft_spec order100 (by rfl)).2
      (by norm_num [order100, PosOrder.amount_total, PosOrder.amount_paid, payment50])⟩

/-- Claim C10: for an order whose state is not `draft`, `action_paid` is a
silent no-op returning success and leaving the record unchanged, whereas
`action_cancel` raises on `done`/`invoiced` orders and
`action_create_invoice` raises on orders that are neither `paid` nor
`done`. -/
theorem action_paid_non_draft_noop (o : PosOrder) (now : String)
    (h : o.state ≠ OrderState.draft) :
    o.action_paid = Except.ok (o, true) ∧
    (o.state = OrderState.done ∨ o.state = OrderState.invoiced →
      o.action_cancel now = Except.error "Cannot cancel a completed order.") ∧
    (¬ (o.state = OrderState.paid ∨ o.state = OrderState.done) →
      o.action_create_invoice = Except.error "Cannot create invoice for unpaid order.") := by
  refine ⟨?_, ?_, ?_⟩
  · simp [PosOrder.action_paid, h]
  · intro hc
    simp [PosOrder.action_cancel, hc]
  · intro hi
    simp only [PosOrder.action_create_invoice, if_pos hi]

/-- A concrete completed (`done`) order. -/
def orderDone : PosOrder :=
  { state := OrderState.done
    lines := [{ price_subtotal := 140, price_subtotal_incl := 150 }]
    payment_ids := []
    invoice_state := InvoiceState.no }

/-- A concrete cancelled order. -/
def orderCancelled : PosOrder :=
  { state := OrderState.cancel
    lines := [{ price_subtotal := 140, price_subtotal_incl := 150 }]
    payment_ids := []
    invoice_state := InvoiceState.no }

/-- Witness for C10: on a `done` order, `action_paid` silently succeeds
without change while `action_cancel` raises; on a cancelled order,
`action_paid` silently succeeds while `action_create_invoice` raises. -/
theorem action_paid_non_draft_noop_witness :
    orderDone.action_paid = Except.ok (orderDone, true) ∧
    orderDone.action_cancel "2024-01-01" = Except.error "Cannot cancel a completed order." ∧
    orderCancelled.action_paid = Except.ok (orderCancelled, true) ∧
    orderCancelled.action_create_invoice = Except.error "Cannot create invoice for unpaid order." :=
  ⟨(action_paid_non_draft_noop orderDone "2024-01-01" (by decide)).1,
   (action_paid_non_draft_noop orderDone "2024-01-01" (by decide)).2.1 (Or.inl rfl),
   (action_paid_non_draft_noop orderCancelled "2024-01-01" (by decide)).1,
   (action_paid_non_draft_noop orderCancelled "2024-01-01" (by decide)).2.2 (by decide)⟩

/-- The pricing fields of `product.template`
(`pos_products/models/product_template.py`).  Monetary fields are rationals
where the Odoo "unset" value (falsy `0.0`) is `0`; the optional discount
window datetimes are integer timestamps, `none` when unset (falsy). -/
structure ProductTemplate where
  list_price : ℚ
  list_price_shop : ℚ
  discount_price : ℚ
  discount_start : Option ℤ
  discount_end : Option ℤ
deriving DecidableEq, Repr

/-- The chained condition `self.discount_start and self.discount_end and
self.discount_start <= now <= self.discount_end` of `get_current_price`. -/
def ProductTemplate.discount_window_active (p : ProductTemplate) (now : ℤ) : Bool :=
  match p.discount_start, p.discount_end with
  | some s, some e => decide (s ≤ now) && decide (now ≤ e)
  | _, _ => false

/-- `ProductTemplate.get_current_price` (product_template.py lines 66-74):
the discounted price when one is set and the discount window is active,
else the shop selling price when set, else the base list price. -/
def ProductTemplate.get_current_price (p : ProductTemplate) (now : ℤ) : ℚ :=
  if p.discount_price ≠ 0 ∧ p.discount_window_active now = true then
    p.discount_price
  else if p.list_price_shop ≠ 0 then
    p.list_price_shop
  else
    p.list_price

/-- The discount condition as the specification words it: a discount price
is set and `now` lies within the interval `[discount_start, discount_end]`
(which presupposes both bounds are set). -/
def ProductTemplate.discount_applies (p : ProductTemplate) (now : ℤ) : Prop :=
  p.discount_price ≠ 0 ∧
  ∃ s e, p.discount_start = some s ∧ p.discount_end = some e ∧ s ≤ now ∧ now ≤ e

/-- Claim C3: `get_current_price` returns the discount price exactly under
the spec's discount condition, otherwise the shop selling price when set,
otherwise the base list price. -/
theorem get_current_price_spec (p : ProductTemplate) (now : ℤ) :
    (p.discount_applies now → p.get_current_price now = p.discount_price) ∧
    (¬ p.discount_applies now → p.list_price_shop ≠ 0 →
      p.get_current_price now = p.list_price_shop) ∧
    (¬ p.discount_applies now → p.list_price_shop = 0 →
      p.get_current_price now = p.list_price) := by
  have hiff : p.discount_applies now ↔
      (p.discount_price ≠ 0 ∧ p.discount_window_active now = true) := by
    unfold ProductTemplate.discount_applies ProductTemplate.discount_window_active
    cases hs : p.discount_start with
    | none => simp [hs]
    | some s =>
      cases he : p.discount_end with
      | none => simp [hs, he]
      | some e => simp [hs, he, and_assoc]
  refine ⟨?_, ?_, ?_⟩
  · intro h
    simp [ProductTemplate.get_current_price, hiff.mp h]
  · intro h hshop
    rw [ProductTemplate.get_current_price, if_neg (fun hc => h (hiff.mpr hc)), if_pos hshop]
  · intro h hshop
    rw [ProductTemplate.get_current_price, if_neg (fun hc => h (hiff.mpr hc)), if_neg (by simp [hshop])]

/-- A concrete product: discount 90 active on the window [-3600, 3600],
shop selling price 100, base list price 120. -/
def productDiscounted : ProductTemplate :=
  { list_price := 120, list_price_shop := 100, discount_price := 90,
    discount_start := some (-3600), discount_end := some 3600 }

/-- The same product with no shop selling price set. -/
def productNoShopPrice : ProductTemplate :=
  { productDiscounted with list_price_shop := 0 }

/-- Witness for C3: at time 0 the discounted product sells for 90; at time
7200 (outside the window) it sells for the shop price 100; without a shop
price it falls back to the base list price 120 outside the window. -/
theorem get_current_price_spec_witness :
    productDiscounted.get_current_price 0 = productDiscounted.discount_price ∧
    productDiscounted.get_current_price 7200 = productDiscounted.list_price_shop ∧
    productNoShopPrice.get_current_price 7200 = productNoShopPrice.list_price :=
  ⟨(get_current_price_spec productDiscounted 0).1
      ⟨by norm_num [productDiscounted], -3600, 3600, rfl, rfl, by norm_num, by norm_num⟩,
   (get_current_price_spec productDiscounted 7200).2.1
      (by simp [ProductTemplate.discount_applies, productDiscounted])
      (by norm_num [productDiscounted]),
   (get_current_price_spec productNoShopPrice 7200).2.2
      (by simp [ProductTemplate.discount_applies, productNoShopPrice, productDiscounted])
      (by norm_num [productNoShopPrice, productDiscounted])⟩

/-- `check_rate_limit` (`backend/app/api/routes.py` lines 48-69) for one
client: `storage` is the client's recorded request timestamps (seconds),
`now` the current time, `limit` the configured per-minute limit.  Timestamps
at or before `now - 60` are discarded; if the remaining count reaches the
limit the request is rejected with a rate-limit error carrying
`retry_after = 60`, otherwise the request's timestamp is recorded. -/
def check_rate_limit (storage : List ℚ) (now : ℚ) (limit : ℕ) :
    Except ℕ (List ℚ) :=
  let cutoff_time := now - 60
  let kept := storage.filter (fun t => cutoff_time < t)
  if limit ≤ kept.length then
    Except.error 60
  else
    Except.ok (kept ++ [now])

/-- Claim C6: the rate-limit check discards timestamps older than the
60-second window, rejects with retry_after 60 exactly when the remaining
count is at least the limit (so the 61st in-window request is rejected at
limit 60), otherwise records the request; and once every recorded timestamp
has left the window, a request succeeds again with a fresh record. -/
theorem check_rate_limit_spec (storage : List ℚ) (now : ℚ) (limit : ℕ) :
    (limit ≤ (storage.filter (fun t => now - 60 < t)).length →
      check_rate_limit storage now limit = Except.error 60) ∧
    ((storage.filter (fun t => now - 60 < t)).length < limit →
      check_rate_limit storage now limit =
        Except.ok (storage.filter (fun t => now - 60 < t) ++ [now])) ∧
    ((∀ t ∈ storage, t ≤ now - 60) → 0 < limit →
      check_rate_limit storage now limit = Except.ok [now]) := by
  refine ⟨?_, ?_, ?_⟩
  · intro h
    simp [check_rate_limit, h]
  · intro h
    simp [check_rate_limit, Nat.not_le.mpr h]
  · intro hold hpos
    have hnil : storage.filter (fun t => now - 60 < t) = [] := by
      rw [List.filter_eq_nil_iff]
      intro t ht
      simpa using not_lt.mpr (hold t ht)
    simp [check_rate_limit, hnil, Nat.pos_iff_ne_zero.mp hpos]

/-- Sixty request timestamps recorded at time 10. -/
def sixtyRequests : List ℚ := List.replicate 60 10

/-- Witness for C6: with limit 60, the 61st request at time 30 (window
still containing all 60 records) is rejected with retry_after 60, and a
request at time 100 (after the window) succeeds with a fresh record. -/
theorem check_rate_limit_spec_witness :
    check_rate_limit sixtyRequests 30 60 = Except.error 60 ∧
    check_rate_limit sixtyRequests 100 60 = Except.ok [100] :=
  ⟨(check_rate_limit_spec sixtyRequests 30 60).1
      (by norm_num [sixtyRequests, List.filter_replicate]),
   (check_rate_limit_spec sixtyRequests 100 60).2.2
      (by
        intro t ht
        have := List.eq_of_mem_replicate (show t ∈ List.replicate 60 (10 : ℚ) from ht)
        rw [this]; norm_num)
      (by norm_num)⟩

/-- An HTTP error response: status code plus detail message. -/
structure HttpError where
  status_code : ℕ
  detail : String
deriving DecidableEq, Repr

/-- Default of `settings.MAX_PREDICTION_BATCH_SIZE`
(`backend/app/core/config.py` line 55). -/
def MAX_PREDICTION_BATCH_SIZE : ℕ := 100

/-- The 422 envelope produced by the registered request-validation handler. -/
def validationError422 : HttpError := { status_code := 422, detail := "Validation failed" }

/-- The 400 raised by the handler size gate, referencing the configured
maximum. -/
def batchSizeError400 (max_batch : ℕ) : HttpError :=
  { status_code := 400, detail := "Batch size exceeds maximum of " ++ toString max_batch }

/-- The request-body validation of `BatchPredictionRequest`
(`backend/app/models/schemas.py` lines 221-227): the `properties` list is
declared with `max_items=100`, so the data-validation layer rejects a
larger list before the route handler runs; per the registered
request-validation handler (`backend/app/core/exceptions.py` lines
134-161) the rejection is a 422 "Validation failed" response.  `n` is the
number of properties in the request body. -/
def batch_request_validation (n : ℕ) : Except HttpError Unit :=
  if 100 < n then
    Except.error validationError422
  else
    Except.ok ()

/-- The explicit size gate inside `batch_predict_prices`
(`backend/app/api/routes.py` lines 163-167): a 400 whose detail references
the configured maximum. -/
def batch_size_check (max_batch n : ℕ) : Except HttpError Unit :=
  if max_batch < n then
    Except.error (batchSizeError400 max_batch)
  else
    Except.ok ()

/-- The `/predict/batch` admission pipeline for a request with `n`
properties: body validation (422 on failure) runs before the handler's own
size gate (400 on failure); `Except.ok ()` means the batch is accepted and
processed. -/
def batch_predict_admission (max_batch n : ℕ) : Except HttpError Unit :=
  match batch_request_validation n with
  | Except.error e => Except.error e
  | Except.ok _ => batch_size_check max_batch n

/-- The HTTP status of an admission outcome (200 for an accepted batch). -/
def admission_status (r : Except HttpError Unit) : ℕ :=
  match r with
  | Except.error e => e.status_code
  | Except.ok _ => 200

/-- Counterexample to C7 as stated: at the default maximum of 100, a request
with 101 properties is rejected by the validation layer with status 422, not
with a 400 referencing the configured maximum. -/
theorem batch_101_rejected_with_422 :
    batch_predict_admission MAX_PREDICTION_BATCH_SIZE 101 =
      Except.error validationError422 ∧
    admission_status (batch_predict_admission MAX_PREDICTION_BATCH_SIZE 101) = 422 ∧
    admission_status (batch_predict_admission MAX_PREDICTION_BATCH_SIZE 101) ≠ 400 := by
  refine ⟨rfl, rfl, ?_⟩
  decide

/-- Claim C7 (amended): with the default maximum of 100, a request with
more than 100 properties (in particular 101) is rejected at the validation
boundary with a 422, a request with at most 100 properties (in particular
exactly 100) is accepted and processed, and the handler's 400 referencing
the configured maximum fires only when the configured maximum lies below
the schema's cap of 100 items. -/
theorem batch_predict_admission_spec (n : ℕ) :
    (100 < n → batch_predict_admission MAX_PREDICTION_BATCH_SIZE n =
      Except.error validationError422) ∧
    (n ≤ 100 → batch_predict_admission MAX_PREDICTION_BATCH_SIZE n = Except.ok ()) ∧
    (∀ max_batch, max_batch < n → n ≤ 100 →
      batch_predict_admission max_batch n =
        Except.error (batchSizeError400 max_batch)) := by
  refine ⟨?_, ?_, ?_⟩
  · intro h
    simp [batch_predict_admission, batch_request_validation, h]
  · intro h
    simp [batch_predict_admission, batch_request_validation, batch_size_check,
      MAX_PREDICTION_BATCH_SIZE, Nat.not_lt.mpr h]
  · intro max_batch hlt hle
    simp [batch_predict_admission, batch_request_validation, batch_size_check,
      Nat.not_lt.mpr hle, hlt]

/-- Witness for amended C7: 101 properties are rejected with the 422
validation error, exactly 100 are accepted, and with the maximum configured
down to 50 a 60-property batch receives the handler's 400. -/
theorem batch_predict_admission_spec_witness :
    batch_predict_admission MAX_PREDICTION_BATCH_SIZE 101 =
      Except.error validationError422 ∧
    batch_predict_admission MAX_PREDICTION_BATCH_SIZE 100 = Except.ok () ∧
    batch_predict_admission 50 60 = Except.error (batchSizeError400 50) :=
  ⟨(batch_predict_admission_spec 101).1 (by decide),
   (batch_predict_admission_spec 100).2.1 (by decide),
   (batch_predict_admission_spec 60).2.2 50 (by decide) (by decide)⟩

/-- The `average_price_range` object of an AI pricing analysis; the
`min_mmk`/`max_mmk` keys may be absent (`dict.get` with default 0). -/
structure AveragePriceRange where
  min_mmk : Option ℚ
  max_mmk : Option ℚ
deriving DecidableEq, Repr

/-- The `pricing_analysis` object of an AI market-analysis payload. -/
structure PricingAnalysis where
  average_price_range : Option AveragePriceRange
deriving DecidableEq, Repr

/-- The parts of an AI market-analysis payload read by the
`/market/analysis` route (`backend/app/api/routes.py` lines 204-252). -/
structure MarketData where
  pricing_analysis : Option PricingAnalysis
deriving DecidableEq, Repr

/-- The nested
`market_data.get("pricing_analysis", {}).get("average_price_range", {}).get("min_mmk", 0)`
lookup chain: 0 whenever any level is absent. -/
def MarketData.min_mmk_figure (md : MarketData) : ℚ :=
  match md.pricing_analysis with
  | none => 0
  | some pa =>
    match pa.average_price_range with
    | none => 0
    | some r => r.min_mmk.getD 0

/-- The fallback payload substituted when the AI call yields nothing: its
pricing analysis carries an average price range of 0 to 0. -/
def fallback_market_data : MarketData :=
  { pricing_analysis := some ⟨some ⟨some 0, some 0⟩⟩ }

/-- The `average_price_mmk` and `average_price_usd` fields of the
`/market/analysis` response: the min-range MMK figure of the (AI-provided
or fallback) payload, and that same figure divided by the fixed 2100
exchange rate. -/
def market_analysis_averages (ai_market_data : Option MarketData) : ℚ × ℚ :=
  let market_data := ai_market_data.getD fallback_market_data
  (market_data.min_mmk_figure, market_data.min_mmk_figure / 2100)

/-- Claim C8: the response's average_price_mmk is the min_mmk of the
(AI-provided or fallback) pricing analysis range (0 when any level is
absent), and average_price_usd is that same minimum figure divided by the
fixed 2100 exchange rate — the minimum of the range is reused as the
displayed average. -/
theorem market_analysis_averages_spec (ai_market_data : Option MarketData) :
    (∀ md pa r m, ai_market_data = some md →
      md.pricing_analysis = some pa →
      pa.average_price_range = some r →
      r.min_mmk = some m →
      market_analysis_averages ai_market_data = (m, m / 2100)) ∧
    (∀ md, ai_market_data = some md → md.pricing_analysis = none →
      market_analysis_averages ai_market_data = (0, 0)) ∧
    (ai_market_data = none → market_analysis_averages ai_market_data = (0, 0)) ∧
    (market_analysis_averages ai_market_data).2 =
      (market_analysis_averages ai_market_data).1 / 2100 := by
  refine ⟨?_, ?_, ?_, rfl⟩
  · intro md pa r m hai hpa hr hm
    simp [market_analysis_averages, MarketData.min_mmk_figure, hai, hpa, hr, hm]
  · intro md hai hpa
    simp [market_analysis_averages, MarketData.min_mmk_figure, hai, hpa]
  · intro hai
    simp [market_analysis_averages, MarketData.min_mmk_figure, hai,
      fallback_market_data]

/-- A concrete AI payload with an average price range of 420000000 to
630000000 MMK. -/
def sampleMarketData : MarketData :=
  { pricing_analysis := some ⟨some ⟨some 420000000, some 630000000⟩⟩ }

/-- Witness for C8: with the concrete AI payload the displayed average is
the 420000000 MMK range minimum and 200000 USD (420000000 / 2100); with no
AI payload both averages are 0. -/
theorem market_analysis_averages_spec_witness :
    market_analysis_averages (some sampleMarketData) = (420000000, 420000000 / 2100) ∧
    market_analysis_averages none = (0, 0) :=
  ⟨(market_analysis_averages_spec (some sampleMarketData)).1 sampleMarketData
      _ _ 420000000 rfl rfl rfl rfl,
   (market_analysis_averages_spec none).2.2.1 rfl⟩

/-- Python float truthiness of an optional coordinate: falsy when absent
(`None`) or exactly `0.0`. -/
def coord_truthy : Option ℚ → Bool
  | none => false
  | some x => decide (x ≠ 0)

/-- Approximate Yangon CBD latitude used by `create_features`. -/
def yangon_cbd_lat : ℚ := 167967 / 10000

/-- Approximate Yangon CBD longitude used by `create_features`. -/
def yangon_cbd_lon : ℚ := 961610 / 10000

/-- The `distance_from_cbd` feature computation of
`FeatureEngineer.create_features` (`backend/app/services/ml_service.py`
lines 155-165): when both coordinates are truthy, the haversine distance to
the Yangon CBD; otherwise the (defaulted) `distance_to_city_center_km`
feature.  The haversine computation `_calculate_distance` (lines 168-181)
involves transcendental functions, so it enters the model as an
uninterpreted parameter `calculate_distance`. -/
def distance_from_cbd (calculate_distance : ℚ → ℚ → ℚ → ℚ → ℚ)
    (latitude longitude : Option ℚ) (distance_to_city_center_km : ℚ) : ℚ :=
  if coord_truthy latitude && coord_truthy longitude then
    calculate_distance (latitude.getD 0) (longitude.getD 0) yangon_cbd_lat yangon_cbd_lon
  else
    distance_to_city_center_km

/-- Claim C9: a latitude or longitude equal to exactly 0 is treated like an
absent coordinate, so the distance_from_cbd feature is not computed by the
haversine formula (whatever function it denotes) but falls back to the
distance-to-city-center value. -/
theorem distance_from_cbd_zero_coordinate
    (calculate_distance : ℚ → ℚ → ℚ → ℚ → ℚ)
    (latitude longitude : Option ℚ) (distance_to_city_center_km : ℚ)
    (h : latitude = some 0 ∨ longitude = some 0) :
    distance_from_cbd calculate_distance latitude longitude distance_to_city_center_km =
      distance_to_city_center_km ∧
    distance_from_cbd calculate_distance latitude longitude distance_to_city_center_km =
      distance_from_cbd calculate_distance none none distance_to_city_center_km := by
  have hfalse : (coord_truthy latitude && coord_truthy longitude) = false := by
    rcases h with h | h
    · simp [h, coord_truthy]
    · simp [h, coord_truthy]
  have h1 : distance_from_cbd calculate_distance latitude longitude
      distance_to_city_center_km = distance_to_city_center_km := by
    simp [distance_from_cbd, hfalse]
  have h2 : distance_from_cbd calculate_distance none none
      distance_to_city_center_km = distance_to_city_center_km := by
    simp [distance_from_cbd, coord_truthy]
  exact ⟨h1, h1.trans h2.symm⟩

/-- Witness for C9: with latitude exactly 0 and a genuine longitude, the
feature equals the defaulted city-center distance 25, not the value 999 of
the supplied distance function. -/
theorem distance_from_cbd_zero_coordinate_witness :
    distance_from_cbd (fun _ _ _ _ => 999) (some 0) (some 50) 25 = 25 ∧
    distance_from_cbd (fun _ _ _ _ => 999) (some 0) (some 50) 25 =
      distance_from_cbd (fun _ _ _ _ => 999) none none 25 :=
  distance_from_cbd_zero_coordinate (fun _ _ _ _ => 999) (some 0) (some 50) 25
    (Or.inl rfl)

/-- The per-model ensemble weight of `MLModelManager.predict`
(`backend/app/services/ml_service.py` lines 433-440): the stored R² score
floored at 0.1 when a metric is recorded, 0.5 otherwise.  `model_metrics`
maps a model name to its stored R² score. -/
def ensemble_weight (model_metrics : List (String × ℚ)) (name : String) : ℚ :=
  match model_metrics.lookup name with
  | some r2 => max (1/10) r2
  | none => 1/2

/-- The weighted ensemble combination of `MLModelManager.predict` (lines
442-446): `sum(pred * weights[name] / total_weight)`.  `predictions` maps
each model name to its prediction for the property at hand. -/
def ensemble_prediction (predictions model_metrics : List (String × ℚ)) : ℚ :=
  let total_weight := (predictions.map (fun pr => ensemble_weight model_metrics pr.1)).sum
  (predictions.map (fun pr => pr.2 * ensemble_weight model_metrics pr.1 / total_weight)).sum

/-- The confidence computation of `MLModelManager.predict` (lines 455-459):
the R² of the chosen model (with `ensemble` mapped to `xgboost`, falling
back to the stored `xgboost` metric and then to a stub R² of 0.7), clamped
by `min(0.95, max(0.5, r2))`. -/
def confidence_score (model_metrics : List (String × ℚ)) (model_name : String) : ℚ :=
  let key := model_name.replace "ensemble" "xgboost"
  let fallback := (model_metrics.lookup "xgboost").getD (7/10)
  min (95/100) (max (1/2) ((model_metrics.lookup key).getD fallback))

/-- The fixed USD exchange rate of `MLModelManager` (line 247). -/
def exchange_rate_usd_mmk : ℚ := 2100

/-- The outcome fields of `MLModelManager.predict` relevant here. -/
structure PredictOutcome where
  predicted_price_mmk : ℚ
  predicted_price_usd : ℚ
  confidence_score : ℚ
  model_used : String
deriving DecidableEq, Repr

/-- `MLModelManager.predict` (`backend/app/services/ml_service.py` lines
412-497) with every model's prediction at the given property abstracted
into `models : name ↦ prediction`:  a truthy preference naming a loaded
model selects that single model, otherwise the weighted ensemble of all
models is used; the USD price divides the MMK price by the fixed rate and
the confidence is the clamped R² of the model used. -/
def MLModelManager.predict (models model_metrics : List (String × ℚ))
    (model_preference : Option String) : PredictOutcome :=
  let use_preference := match model_preference with
    | some p => (p != "") && (models.lookup p).isSome
    | none => false
  if use_preference then
    let p := model_preference.getD ""
    let price := (models.lookup p).getD 0
    { predicted_price_mmk := price
      predicted_price_usd := price / exchange_rate_usd_mmk
      confidence_score := confidence_score model_metrics p
      model_used := p }
  else
    let price := ensemble_prediction models model_metrics
    { predicted_price_mmk := price
      predicted_price_usd := price / exchange_rate_usd_mmk
      confidence_score := confidence_score model_metrics "ensemble"
      model_used := "ensemble" }

/-- Dividing each summand by a constant divides the sum by it. -/
theorem list_map_div_sum {α : Type} (l : List α) (f : α → ℚ) (c : ℚ) :
    (l.map (fun x => f x / c)).sum = (l.map f).sum / c := by
  induction l with
  | nil => simp
  | cons a t ih => simp [ih, add_div]

/-- Claim C4: with no (or an unknown) model preference and a non-empty
model map, predict returns the weighted ensemble
Σ(model_prediction × weight) / Σ(weight) with weight = max(0.1, stored R²)
or 0.5 when no metric is recorded, and the returned confidence score always
lies in [0.5, 0.95]. -/
theorem predict_ensemble_spec (models model_metrics : List (String × ℚ))
    (model_preference : Option String)
    (_hne : models ≠ [])
    (hpref : model_preference = none ∨
      ∃ p, model_preference = some p ∧ models.lookup p = none) :
    (MLModelManager.predict models model_metrics model_preference).predicted_price_mmk =
      (models.map (fun m => m.2 * ensemble_weight model_metrics m.1)).sum /
        (models.map (fun m => ensemble_weight model_metrics m.1)).sum ∧
    1/2 ≤ (MLModelManager.predict models model_metrics model_preference).confidence_score ∧
    (MLModelManager.predict models model_metrics model_preference).confidence_score ≤ 95/100 := by
  have hpred : MLModelManager.predict models model_metrics model_preference =
      { predicted_price_mmk := ensemble_prediction models model_metrics
        predicted_price_usd := ensemble_prediction models model_metrics / exchange_rate_usd_mmk
        confidence_score := confidence_score model_metrics "ensemble"
        model_used := "ensemble" } := by
    rcases hpref with h | ⟨p, hp, hlook⟩
    · subst h
      simp [MLModelManager.predict]
    · subst hp
      simp [MLModelManager.predict, hlook]
  refine ⟨?_, ?_, ?_⟩
  · rw [hpred]
    show ensemble_prediction models model_metrics = _
    rw [ensemble_prediction]
    exact list_map_div_sum models (fun m => m.2 * ensemble_weight model_metrics m.1) _
  · rw [hpred]
    exact le_min (by norm_num) (le_max_left _ _)
  · rw [hpred]
    exact min_le_left _ _

/-- Two concrete models predicting 100 and 200. -/
def twoModels : List (String × ℚ) := [("xgboost", 100), ("lightgbm", 200)]

/-- Stored metrics: R² 0.9 for xgboost, 0.5 for lightgbm. -/
def twoMetrics : List (String × ℚ) := [("xgboost", 9/10), ("lightgbm", 1/2)]

/-- Witness for C4: with no preference, the two concrete models ensemble to
Σ(pred × weight)/Σ(weight) = (100×0.9 + 200×0.5)/(0.9 + 0.5) = 950/7, and
the confidence lies in [0.5, 0.95]. -/
theorem predict_ensemble_spec_witness :
    (MLModelManager.predict twoModels twoMetrics none).predicted_price_mmk =
      (twoModels.map (fun m => m.2 * ensemble_weight twoMetrics m.1)).sum /
        (twoModels.map (fun m => ensemble_weight twoMetrics m.1)).sum ∧
    (twoModels.map (fun m => m.2 * ensemble_weight twoMetrics m.1)).sum /
        (twoModels.map (fun m => ensemble_weight twoMetrics m.1)).sum = 950/7 ∧
    1/2 ≤ (MLModelManager.predict twoModels twoMetrics none).confidence_score ∧
    (MLModelManager.predict twoModels twoMetrics none).confidence_score ≤ 95/100 :=
  have h := predict_ensemble_spec twoModels twoMetrics none (by simp [twoModels]) (Or.inl rfl)
  ⟨h.1, by
    have e1 : ("lightgbm" == "xgboost") = false := by rfl
    norm_num [twoModels, twoMetrics, ensemble_weight, List.lookup, e1],
   h.2.1, h.2.2⟩

/-- A feature value in a property feature map: numeric or categorical
(string). -/
inductive FVal where
  | num (q : ℚ)
  | str (s : String)
deriving DecidableEq, Repr

/-- A feature map, as produced by `create_features`: feature name to
value. -/
abbrev FeatureMap := List (String × FVal)

/-- String rendering of a feature value, mirroring `.astype(str)` applied
to a categorical column. -/
def FVal.asStr : FVal → String
  | FVal.str s => s
  | FVal.num q => toString q

/-- Numeric reading of a feature value; a string in a numeric position is
never consulted on the paths proved below. -/
def FVal.toNumD : FVal → ℚ
  | FVal.num q => q
  | FVal.str _ => 0

/-- The five categorical columns of `FeatureEngineer`
(`backend/app/services/ml_service.py` lines 189, 211). -/
def categorical_cols : List String :=
  ["property_type", "condition", "city", "township", "location_tier"]

/-- The state of a `FeatureEngineer` (`ml_service.py` lines 35-41): one
label encoder (its class list) per fitted categorical column, the fitted
standard-scaler parameters (per-column mean and scale), the canonical
feature-name order, and the fitted flag. -/
structure FeatureEngineer where
  label_encoders : List (String × List String)
  scaler_mean : List ℚ
  scaler_scale : List ℚ
  feature_names : List String
  is_fitted : Bool
deriving DecidableEq, Repr

/-- `FeatureEngineer.__init__` (lines 38-41): empty encoders, fresh scaler,
no feature names, not fitted. -/
def FeatureEngineer.init : FeatureEngineer :=
  { label_encoders := [], scaler_mean := [], scaler_scale := [],
    feature_names := [], is_fitted := false }

/-- `LabelEncoder.fit`: the classes are the sorted distinct string values
of the column. -/
def label_encoder_classes (values : List String) : List String :=
  values.dedup.mergeSort (fun a b => a ≤ b)

/-- `LabelEncoder.transform` on one value, combined with the
unseen-category handler of `FeatureEngineer.transform` (lines 216-220):
a seen class maps to its index, an unseen value to 0. -/
def label_encoder_encode (classes : List String) (v : String) : ℚ :=
  (((classes.indexOf? v).getD 0 : ℕ) : ℚ)

/-- The column set of `pd.DataFrame(features_list)`: union of the row keys
in order of first appearance. -/
def df_columns (data : List FeatureMap) : List String :=
  data.foldl
    (fun acc row => row.foldl
      (fun a kv => if kv.1 ∈ a then a else a ++ [kv.1]) acc) []

/-- One column of the training frame (`none` cells are abstracted to 0;
the training rows produced by `create_features` share all keys). -/
def df_column (data : List FeatureMap) (col : String) : List FVal :=
  data.map (fun row => (row.lookup col).getD (FVal.num 0))

/-- `FeatureEngineer.fit_transform` (lines 183-202): label-encodes the
categorical columns present in the frame (storing the encoders), records
the column order as the canonical feature names, standard-scales all
columns and marks the engineer fitted.  The per-column standard deviation
is irrational in general, so it enters the model as the uninterpreted
parameter `stdFn`; the per-column mean is computed exactly. -/
def FeatureEngineer.fit_transform (fe : FeatureEngineer) (stdFn : List ℚ → ℚ)
    (data : List FeatureMap) : FeatureEngineer × List (List ℚ) :=
  let cols := df_columns data
  let fitted := (categorical_cols.filter (fun c => c ∈ cols)).map
    (fun c => (c, label_encoder_classes ((df_column data c).map FVal.asStr)))
  let label_encoders := fitted ++
    fe.label_encoders.filter (fun kv => (fitted.lookup kv.1).isNone)
  let table := data.map (fun row => cols.map (fun c =>
    match fitted.lookup c with
    | some classes => label_encoder_encode classes (((row.lookup c).getD (FVal.num 0)).asStr)
    | none => ((row.lookup c).getD (FVal.num 0)).toNumD))
  let column := fun i => table.map (fun r => r.getD i 0)
  let scaler_mean := (List.range cols.length).map
    (fun i => (column i).sum / (data.length : ℚ))
  let scaler_scale := (List.range cols.length).map (fun i => stdFn (column i))
  let scaled := table.map (fun r => (List.range cols.length).map
    (fun i => (r.getD i 0 - scaler_mean.getD i 0) / scaler_scale.getD i 1))
  ({ label_encoders := label_encoders, scaler_mean := scaler_mean,
     scaler_scale := scaler_scale, feature_names := cols, is_fitted := true },
   scaled)

/-- The categorical-encoding pass of `FeatureEngineer.transform` (lines
211-220) on a single cell: a value in a categorical column with a stored
encoder is label-encoded (unseen values fall back to index 0 via the
`ValueError` handler); every other cell is untouched. -/
def FeatureEngineer.encode_step (fe : FeatureEngineer) (nm : String) (v : FVal) : FVal :=
  if nm ∈ categorical_cols then
    match fe.label_encoders.lookup nm with
    | some classes => FVal.num (label_encoder_encode classes v.asStr)
    | none => v
  else v

/-- `FeatureEngineer.transform` (lines 204-234): raises the "not fitted"
ML-model error before fitting; otherwise label-encodes the categorical
cells, fills canonical features missing from the input with 0, reorders to
the canonical feature-name order, applies the stored scaling and returns
the single row.  A non-numeric cell surviving to the scaler raises the
underlying conversion error. -/
def FeatureEngineer.transform (fe : FeatureEngineer) (features : FeatureMap) :
    Except String (List ℚ) :=
  if fe.is_fitted = false then
    Except.error "FeatureEngineer not fitted yet"
  else
    match fe.feature_names.mapM (fun nm =>
      match (features.map (fun kv => (kv.1, fe.encode_step kv.1 kv.2))).lookup nm with
      | some (FVal.num q) => some q
      | some (FVal.str _) => none
      | none => some (0 : ℚ)) with
    | none => Except.error "could not convert string to float"
    | some row =>
      Except.ok ((List.range fe.feature_names.length).map
        (fun i => (row.getD i 0 - fe.scaler_mean.getD i 0) / fe.scaler_scale.getD i 1))

/-- The value the fitted engineer feeds into the scaler for canonical
feature `nm` of an input map, as the specification words it: the encoded
category for an encoded categorical column (index 0 when unseen), 0 for a
feature missing from the input, the numeric value otherwise. -/
def fitted_feature_value (fe : FeatureEngineer) (features : FeatureMap)
    (nm : String) : ℚ :=
  match features.lookup nm with
  | none => 0
  | some v =>
    if nm ∈ categorical_cols then
      match fe.label_encoders.lookup nm with
      | some classes => label_encoder_encode classes v.asStr
      | none => v.toNumD
    else v.toNumD

/-- Looking a key up in a key-preserving value rewrite of an association
list rewrites the looked-up value. -/
theorem lookup_map_keyed (l : List (String × FVal)) (h : String → FVal → FVal)
    (nm : String) :
    (l.map (fun kv => (kv.1, h kv.1 kv.2))).lookup nm = (l.lookup nm).map (h nm) := by
  induction l with
  | nil => rfl
  | cons kv t ih =>
    rcases kv with ⟨k, v⟩
    by_cases he : nm = k
    · subst he
      simp [List.lookup]
    · simp [List.lookup, beq_false_of_ne he, ih]

/-- A monadic map over `Option` whose steps all succeed pointwise is the
plain map. -/
theorem mapM_option_eq_map {α β : Type} (l : List α) (g : α → Option β)
    (f : α → β) (h : ∀ a ∈ l, g a = some (f a)) :
    l.mapM g = some (l.map f) := by
  induction l with
  | nil => rfl
  | cons a t ih =>
    have ha := h a (List.mem_cons_self a t)
    have ht := ih (fun x hx => h x (List.mem_cons_of_mem a hx))
    rw [List.mapM_cons, ha, ht]
    rfl

/-- Claim C5: `transform` raises the "not fitted" ML-model error exactly
when called before fitting (the freshly constructed engineer is unfitted
and `fit_transform` marks the engineer fitted); once fitted, on any input
map whose string values sit in encoded categorical columns (as all
`create_features` maps do) — including maps with categories unseen during
fitting (encoded as index 0) and maps missing canonical features (filled
with 0) — it does not raise, and returns the scaled vector whose entries
follow the fitted canonical feature-name order. -/
theorem transform_fitted_spec :
    (∀ (fe : FeatureEngineer) (features : FeatureMap), fe.is_fitted = false →
      fe.transform features = Except.error "FeatureEngineer not fitted yet") ∧
    FeatureEngineer.init.is_fitted = false ∧
    (∀ (fe : FeatureEngineer) (stdFn : List ℚ → ℚ) (data : List FeatureMap),
      ((fe.fit_transform stdFn data).1).is_fitted = true) ∧
    (∀ (fe : FeatureEngineer) (features : FeatureMap), fe.is_fitted = true →
      (∀ nm s, features.lookup nm = some (FVal.str s) →
        nm ∈ categorical_cols ∧ (fe.label_encoders.lookup nm).isSome = true) →
      fe.transform features = Except.ok
        ((List.range fe.feature_names.length).map
          (fun i => (fitted_feature_value fe features (fe.feature_names.getD i "") -
            fe.scaler_mean.getD i 0) / fe.scaler_scale.getD i 1))) := by
  refine ⟨?_, rfl, ?_, ?_⟩
  · intro fe features h
    simp [FeatureEngineer.transform, h]
  · intro fe stdFn data
    rfl
  · intro fe features hf hstr
    unfold FeatureEngineer.transform
    rw [if_neg (by simp [hf])]
    have hsteps : ∀ nm ∈ fe.feature_names,
        (match (features.map (fun kv => (kv.1, fe.encode_step kv.1 kv.2))).lookup nm with
          | some (FVal.num q) => some q
          | some (FVal.str _) => none
          | none => some (0 : ℚ)) = some (fitted_feature_value fe features nm) := by
      intro nm _
      rw [lookup_map_keyed features fe.encode_step nm]
      cases hl : features.lookup nm with
      | none => simp [fitted_feature_value, hl]
      | some v =>
        cases v with
        | num q =>
          by_cases hc : nm ∈ categorical_cols
          · cases henc : fe.label_encoders.lookup nm with
            | some classes =>
              simp [FeatureEngineer.encode_step, hc, henc, fitted_feature_value, hl]
            | none =>
              simp [FeatureEngineer.encode_step, hc, henc, fitted_feature_value, hl,
                FVal.toNumD]
          · simp [FeatureEngineer.encode_step, hc, fitted_feature_value, hl, FVal.toNumD]
        | str s =>
          obtain ⟨hc, hsome⟩ := hstr nm s hl
          obtain ⟨classes, henc⟩ := Option.isSome_iff_exists.mp hsome
          simp [FeatureEngineer.encode_step, hc, henc, fitted_feature_value, hl]
    rw [mapM_option_eq_map fe.feature_names _
      (fun nm => fitted_feature_value fe features nm) hsteps]
    refine congrArg Except.ok (List.map_congr_left ?_)
    intro i hi
    have hlt : i < fe.feature_names.length := List.mem_range.mp hi
    have h1 : (fe.feature_names.map (fun nm => fitted_feature_value fe features nm)).getD i 0
        = fitted_feature_value fe features (fe.feature_names.getD i "") := by
      rw [List.getD_eq_getElem?_getD, List.getElem?_map, List.getD_eq_getElem?_getD,
        List.getElem?_eq_getElem hlt]
      rfl
    rw [h1]

/-- A degenerate standard-deviation function for concrete fitting. -/
def stdOne : List ℚ → ℚ := fun _ => 1

/-- A concrete training row: a 1200 sqft property in yangon. -/
def trainRow1 : FeatureMap := [("size_sqft", FVal.num 1200), ("city", FVal.str "yangon")]

/-- A concrete training row: an 800 sqft property in bago. -/
def trainRow2 : FeatureMap := [("size_sqft", FVal.num 800), ("city", FVal.str "bago")]

/-- The engineer fitted on the two concrete training rows. -/
def fittedFE : FeatureEngineer :=
  (FeatureEngineer.init.fit_transform stdOne [trainRow1, trainRow2]).1

/-- A concrete input whose city was never seen during fitting and which is
missing the canonical `size_sqft` feature. -/
def unseenCityFeatures : FeatureMap := [("city", FVal.str "mandalay")]

/-- Witness for C5: before fitting, `transform` raises the "not fitted"
error; the concrete fit marks the engineer fitted; and transforming the
unseen-city, missing-feature input does not raise, producing the vector in
the fitted canonical order. -/
theorem transform_fitted_spec_witness :
    FeatureEngineer.init.transform unseenCityFeatures =
      Except.error "FeatureEngineer not fitted yet" ∧
    fittedFE.is_fitted = true ∧
    fittedFE.transform unseenCityFeatures = Except.ok
      ((List.range fittedFE.feature_names.length).map
        (fun i => (fitted_feature_value fittedFE unseenCityFeatures
            (fittedFE.feature_names.getD i "") -
          fittedFE.scaler_mean.getD i 0) / fittedFE.scaler_scale.getD i 1)) :=
  ⟨transform_fitted_spec.1 FeatureEngineer.init unseenCityFeatures rfl,
   transform_fitted_spec.2.2.1 FeatureEngineer.init stdOne [trainRow1, trainRow2],
   transform_fitted_spec.2.2.2 fittedFE unseenCityFeatures rfl
     (by
       intro nm s hl
       have hcity : nm = "city" := by
         by_contra hne
         simp [unseenCityFeatures, List.lookup, beq_false_of_ne hne] at hl
       subst hcity
       exact ⟨by decide, rfl⟩)⟩
